import Mathlib

/-
Shallow embedding of the coaddition pipeline of lsst/pipe/tasks:
  - makeCoaddTempExp.py : MakeCoaddTempExpTask (run, makeModelPsf, preprocessExposure)
  - coadd.py            : CoaddTask (__init__, run)
  - processCoadd.py     : ProcessCoaddTask.setIsPrimaryFlag

External numeric primitives (afwDetection.createPsf validation, afwGeom.Box2D
containment) that are not part of this repository are modelled from the spec,
and are marked as such in their doc comments.  Per-exposure external outcomes
(dataset existence, PSF-match convergence, warp overlap, calibration presence)
are supplied through an explicit environment record.
-/

open Classical

/-- Error taxonomy of the spec, mapped onto the concrete exceptions of the code:
`emptyInputSet` is `pipeBase.TaskError("No exposures to coadd")`;
`schemaInconsistency` is the `RuntimeError` of `setIsPrimaryFlag`;
`invalidParameter` is the error of the model builder on malformed numeric input;
the remaining three are the per-exposure failures caught by the run loop. -/
inductive CoaddError where
  | emptyInputSet
  | invalidParameter
  | psfMatchFailure
  | noOverlap
  | calibrationMissing
  | schemaInconsistency
deriving DecidableEq, Repr

/-- FWHMPerSigma = 2 * math.sqrt(2 * math.log(2)), as defined at module level in
both makeCoaddTempExp.py and coadd.py. -/
noncomputable def FWHMPerSigma : ℝ := 2 * Real.sqrt (2 * Real.log 2)

/-- Result of afwDetection.createPsf("DoubleGaussian", width, height, sigma1, sigma2, b):
a double-Gaussian kernel with core standard deviation sigma1, wing standard
deviation sigma2, and wing peak amplitude b relative to the core. -/
structure DoubleGaussianPsf where
  width : Int
  height : Int
  sigma1 : ℝ
  sigma2 : ℝ
  b : ℝ

/-- Modelled from the spec: afwDetection.createPsf is external to this repository.
Per the spec (PSF Model Builder) the construction is a pure, deterministic
function of its arguments and fails with InvalidParameter when the FWHM is
non-positive (equivalently, the core sigma is non-positive) or the kernel
dimensions are non-positive. -/
noncomputable def createPsfDoubleGaussian (width height : Int) (sigma1 sigma2 b : ℝ) :
    Except CoaddError DoubleGaussianPsf :=
  if sigma1 ≤ 0 ∨ width ≤ 0 ∨ height ≤ 0 then Except.error CoaddError.invalidParameter
  else Except.ok ⟨width, height, sigma1, sigma2, b⟩

/-- MakeCoaddTempExpTask.makeModelPsf: coreSigma = fwhmPixels / FWHMPerSigma, then
createPsf("DoubleGaussian", kernelDim[0], kernelDim[1], coreSigma, coreSigma * 2.5, 0.1). -/
noncomputable def makeModelPsf (fwhmPixels : ℝ) (kernelDim : Int × Int) :
    Except CoaddError DoubleGaussianPsf :=
  createPsfDoubleGaussian kernelDim.1 kernelDim.2 (fwhmPixels / FWHMPerSigma)
    ((fwhmPixels / FWHMPerSigma) * 2.5) 0.1

/-- Exposures, tracked as the sequence of transformations the pipeline applied:
`calexp id` is the calibrated science exposure loaded from the repository; the
other constructors record the outputs of psfMatch.run, warper.warpExposure and
zeroPointScaler.scaleExposure respectively. -/
inductive Exp where
  | calexp (id : Nat)
  | psfMatched (e : Exp) (modelPsf : DoubleGaussianPsf)
  | warped (e : Exp)
  | scaled (e : Exp)

/-- The slice of MakeCoaddTempExpConfig the preprocessing pipeline reads:
desiredFwhm is an optional float ("None for no FWHM matching"). -/
structure MakeCoaddTempExpConfig where
  desiredFwhm : Option ℝ

/-- Outcomes of the external collaborators, one field per call site:
`pixelScaleArcsec` is wcs.pixelScale().asArcseconds(); `kernelDim` is
exposure.getPsf().getKernel().getDimensions(); the three Bool fields tell
whether psfMatch.run converges, whether warpExposure finds overlap, and whether
zeroPointScaler.scaleExposure finds calibration metadata; `datasetExists` is
calExpRef.datasetExists("calexp"). -/
structure PipelineEnv where
  pixelScaleArcsec : ℝ
  kernelDim : Exp → Int × Int
  psfMatchOk : Exp → Bool
  warpOk : Exp → Bool
  scaleOk : Exp → Bool
  datasetExists : Nat → Bool

/-- The conditional PSF-match block of MakeCoaddTempExpTask.preprocessExposure:
`if self.config.desiredFwhm is not None:` then fwhmPixels =
desiredFwhm / wcs.pixelScale().asArcseconds(), modelPsf = makeModelPsf(...),
exposure = psfMatch.run(exposure, modelPsf).psfMatchedExposure. -/
noncomputable def psfMatchStep (env : PipelineEnv) (config : MakeCoaddTempExpConfig)
    (exposure : Exp) : Except CoaddError Exp :=
  match config.desiredFwhm with
  | some desiredFwhm =>
    match makeModelPsf (desiredFwhm / env.pixelScaleArcsec) (env.kernelDim exposure) with
    | Except.error e => Except.error e
    | Except.ok modelPsf =>
      if env.psfMatchOk exposure then Except.ok (Exp.psfMatched exposure modelPsf)
      else Except.error CoaddError.psfMatchFailure
  | none => Except.ok exposure

/-- The warp line of preprocessExposure:
exposure = self.warper.warpExposure(wcs, exposure, ...); raises NoOverlap when
the source exposure does not intersect the destination region. -/
def warpStep (env : PipelineEnv) (exposure : Exp) : Except CoaddError Exp :=
  if env.warpOk exposure then Except.ok (Exp.warped exposure)
  else Except.error CoaddError.noOverlap

/-- The zero-point line of preprocessExposure:
self.zeroPointScaler.scaleExposure(exposure); absence of calibration metadata is
a failure for this exposure. -/
def scaleStep (env : PipelineEnv) (exposure : Exp) : Except CoaddError Exp :=
  if env.scaleOk exposure then Except.ok (Exp.scaled exposure)
  else Except.error CoaddError.calibrationMissing

/-- MakeCoaddTempExpTask.preprocessExposure: optional PSF match, then warp, then
zero-point scale, returning the preprocessed exposure; any raised error
propagates to the caller of preprocessExposure. -/
noncomputable def preprocessExposure (env : PipelineEnv) (config : MakeCoaddTempExpConfig)
    (exposure : Exp) : Except CoaddError Exp :=
  match psfMatchStep env config exposure with
  | Except.error e => Except.error e
  | Except.ok e1 =>
    match warpStep env e1 with
    | Except.error e => Except.error e
    | Except.ok e2 => scaleStep env e2

/-- Discriminator for Except results. -/
def exceptOk {ε α : Type} : Except ε α → Bool
  | Except.ok _ => true
  | Except.error _ => false

/-- An exposure id survives the run loop when its calexp dataset exists and
preprocessExposure succeeds on it. -/
noncomputable def survives (env : PipelineEnv) (config : MakeCoaddTempExpConfig)
    (calExpId : Nat) : Bool :=
  env.datasetExists calExpId && exceptOk (preprocessExposure env config (Exp.calexp calExpId))

/-- The for-loop of MakeCoaddTempExpTask.run over imageRefList: a missing calexp
dataset logs and continues; preprocessExposure is wrapped in
`except Exception, e: log; continue`, so any error it raises skips only that
exposure; on success the exposure's reference is appended to dataRefList.
The persistence branch (config.doWrite) is out of scope per the spec. -/
noncomputable def runLoop (env : PipelineEnv) (config : MakeCoaddTempExpConfig) :
    List Nat → List Nat
  | [] => []
  | calExpId :: rest =>
    if env.datasetExists calExpId then
      match preprocessExposure env config (Exp.calexp calExpId) with
      | Except.error _ => runLoop env config rest
      | Except.ok _ => calExpId :: runLoop env config rest
    else runLoop env config rest

/-- MakeCoaddTempExpTask.run: numExp = len(imageRefList); if numExp < 1 it raises
TaskError("No exposures to coadd") (the spec's EmptyInputSet), before the
per-exposure loop; otherwise it runs the loop and returns dataRefList. -/
noncomputable def runTask (env : PipelineEnv) (config : MakeCoaddTempExpConfig)
    (imageRefList : List Nat) : Except CoaddError (List Nat) :=
  if imageRefList.length < 1 then Except.error CoaddError.emptyInputSet
  else Except.ok (runLoop env config imageRefList)

/- ===== processCoadd.py : ProcessCoaddTask.setIsPrimaryFlag ===== -/

/-- Floating-point bounding box, afwGeom.Box2D(patchInfo.getInnerBBox()).
Rational coordinates stand in for the floats of the code. -/
structure Box2D where
  minX : ℚ
  minY : ℚ
  maxX : ℚ
  maxY : ℚ
deriving DecidableEq, Repr

/-- Modelled from the spec: afwGeom.Box2D.contains is external to this
repository; per the spec the containment is half-open — a point exactly on the
upper boundary is excluded. -/
def Box2D.containsPoint (box : Box2D) (p : ℚ × ℚ) : Bool :=
  box.minX ≤ p.1 && p.1 < box.maxX && box.minY ≤ p.2 && p.2 < box.maxY

/-- One row of the source table, with the fields setIsPrimaryFlag reads and
writes: the centroid-unknown flag, the centroid, an opaque sky-coordinate token
(fed to findTract), the value of the deblend child-count field, and the three
output flags (Flag fields are created false by the schema). -/
structure SourceRecord where
  centroidFlag : Bool
  centroid : ℚ × ℚ
  coordId : Nat
  nChild : Nat
  isPatchInner : Bool
  isTractInner : Bool
  isPrimary : Bool
deriving DecidableEq, Repr

/-- The fields of the SkyInfo struct that setIsPrimaryFlag reads:
innerFloatBBox = Box2D(skyInfo.patchInfo.getInnerBBox()),
tractId = skyInfo.tractInfo.getId(), and
findTractId c = skyInfo.skyMap.findTract(c).getId(). -/
structure SkyInfo where
  innerFloatBBox : Box2D
  tractId : Int
  findTractId : Nat → Int

/-- The slice of ProcessCoaddConfig that setIsPrimaryFlag reads. -/
structure ProcessCoaddConfig where
  doDeblend : Bool

/-- The body of the per-source loop of setIsPrimaryFlag: sources with the
centroid flag set are left untouched (continue); otherwise the two inner flags
are computed and set, and the primary flag is set to their conjunction when the
nChild key is absent or the source has zero children — otherwise the primary
flag is not written (it keeps its prior value). -/
def processSource (skyInfo : SkyInfo) (hasNChildKey : Bool) (source : SourceRecord) :
    SourceRecord :=
  if source.centroidFlag then source
  else
    let isPatchInner := skyInfo.innerFloatBBox.containsPoint source.centroid
    let isTractInner := skyInfo.findTractId source.coordId == skyInfo.tractId
    let source1 := { source with isPatchInner := isPatchInner, isTractInner := isTractInner }
    if !hasNChildKey || source.nChild == 0 then
      { source1 with isPrimary := isPatchInner && isTractInner }
    else source1

/-- ProcessCoaddTask.setIsPrimaryFlag: nChildKey is looked up in the schema
(absence gives None, here hasNChildKey = false); if config.doDeblend and the
key is absent it raises RuntimeError (the spec's SchemaInconsistency);
otherwise every source is processed by the loop body. -/
def setIsPrimaryFlag (config : ProcessCoaddConfig) (hasNChildKey : Bool)
    (skyInfo : SkyInfo) (sources : List SourceRecord) :
    Except CoaddError (List SourceRecord) :=
  if config.doDeblend && !hasNChildKey then Except.error CoaddError.schemaInconsistency
  else Except.ok (sources.map (processSource skyInfo hasNChildKey))

/- ===== coadd.py : CoaddTask ===== -/

/-- Names bound at module level in coadd.py: the imports and the two
module-level definitions. -/
def coaddModuleNames : List String :=
  ["math", "os", "sys", "afwDetection", "afwGeom", "afwMath",
   "coaddUtils", "ipDiffIm", "pipeBase", "FWHMPerSigma", "CoaddTask"]

/-- The parameter list of CoaddTask.run as declared in coadd.py:
def run(butler, idList, coaddBBox, coaddWcs, desFwhm) — note: no self. -/
def coaddRunParams : List String :=
  ["butler", "idList", "coaddBBox", "coaddWcs", "desFwhm"]

/-- Local names assigned in CoaddTask.run before its first logging call. -/
def coaddRunLocals : List String := ["numExp"]

/-- The Python builtins referenced by CoaddTask.run. -/
def pyBuiltinNames : List String := ["len", "enumerate", "RuntimeError"]

/-- Python name resolution inside the body of CoaddTask.run: a name resolves
when it is a parameter, an assigned local, a module-level binding of coadd.py,
or a builtin; otherwise evaluating it raises NameError. -/
def resolvesInCoaddRun (name : String) : Bool :=
  coaddRunParams.contains name || coaddRunLocals.contains name ||
  coaddModuleNames.contains name || pyBuiltinNames.contains name

/-- Outcome of evaluating a straight-line piece of Python code. -/
inductive PyOutcome where
  | ok
  | runtimeError
  | nameError (n : String)
  | attributeError (n : String)
deriving DecidableEq, Repr

/-- Control flow of CoaddTask.run up to its first Coadd-construction line:
numExp < 1 raises RuntimeError("No exposures to coadd!"); otherwise the first
statement executed is self.log.log(pexLog.INFO, ...), which evaluates the names
self and pexLog, and the Coadd construction line evaluates policy; each name
that does not resolve raises NameError at its first evaluation. -/
def coaddTaskRunOutcome (numExpRefs : Nat) : PyOutcome :=
  if numExpRefs < 1 then PyOutcome.runtimeError
  else if !resolvesInCoaddRun "self" then PyOutcome.nameError "self"
  else if !resolvesInCoaddRun "pexLog" then PyOutcome.nameError "pexLog"
  else if !resolvesInCoaddRun "policy" then PyOutcome.nameError "policy"
  else PyOutcome.ok

/-- The attributes defined in the class body of CoaddTask in coadd.py. -/
def coaddTaskClassAttrs : List String := ["__init__", "run"]

/-- Control flow of CoaddTask.__init__: its first statement is
self.pipeBase.Task.__init__(...), an attribute lookup of pipeBase on a freshly
constructed instance (no instance attributes exist yet); the lookup falls back
to the class attributes of CoaddTask and then to the attributes of the base
Task class, and raises AttributeError when none defines pipeBase. -/
def coaddTaskInitOutcome (baseTaskAttrs : List String) : PyOutcome :=
  if coaddTaskClassAttrs.contains "pipeBase" || baseTaskAttrs.contains "pipeBase" then
    PyOutcome.ok
  else PyOutcome.attributeError "pipeBase"

/- ===== Concrete instances used by witnesses and counterexamples ===== -/

/-- Environment in which every external collaborator succeeds. -/
noncomputable def envAllOk : PipelineEnv :=
  { pixelScaleArcsec := 1, kernelDim := fun _ => (3, 3),
    psfMatchOk := fun _ => true, warpOk := fun _ => true, scaleOk := fun _ => true,
    datasetExists := fun _ => true }

/-- Environment in which every calexp dataset is missing. -/
noncomputable def envAllMissing : PipelineEnv :=
  { pixelScaleArcsec := 1, kernelDim := fun _ => (3, 3),
    psfMatchOk := fun _ => true, warpOk := fun _ => true, scaleOk := fun _ => true,
    datasetExists := fun _ => false }

/-- Environment in which warping always fails with NoOverlap. -/
noncomputable def envNoOverlap : PipelineEnv :=
  { pixelScaleArcsec := 1, kernelDim := fun _ => (3, 3),
    psfMatchOk := fun _ => true, warpOk := fun _ => false, scaleOk := fun _ => true,
    datasetExists := fun _ => true }

/-- Config with PSF matching disabled (desiredFwhm is None). -/
def cfgNone : MakeCoaddTempExpConfig := { desiredFwhm := none }

/-- Config with a configured but non-positive desired FWHM. -/
noncomputable def cfgNeg : MakeCoaddTempExpConfig := { desiredFwhm := some (-1) }

/-- A sample sky-info record: unit inner box, tract 7, and a tract index that
assigns coordinate token 0 to tract 7 and every other token to tract 8. -/
def skyInfo0 : SkyInfo :=
  { innerFloatBBox := { minX := 0, minY := 0, maxX := 1, maxY := 1 },
    tractId := 7, findTractId := fun c => if c = 0 then 7 else 8 }

/-- A childless source with a valid centroid inside the inner box, whose sky
coordinate resolves to a different tract. -/
def srcOutsideTract : SourceRecord :=
  { centroidFlag := false, centroid := ((1 : ℚ) / 2, (1 : ℚ) / 2), coordId := 1,
    nChild := 0, isPatchInner := false, isTractInner := false, isPrimary := false }

/-- A source whose centroid is flagged unknown. -/
def srcBadCentroid : SourceRecord :=
  { centroidFlag := true, centroid := ((1 : ℚ) / 2, (1 : ℚ) / 2), coordId := 0,
    nChild := 0, isPatchInner := false, isTractInner := false, isPrimary := false }

/- ===== Helper lemmas ===== -/

theorem FWHMPerSigma_pos : 0 < FWHMPerSigma := by
  unfold FWHMPerSigma
  have h2 : (0 : ℝ) < Real.log 2 := Real.log_pos (by norm_num)
  have : (0 : ℝ) < Real.sqrt (2 * Real.log 2) := Real.sqrt_pos.mpr (by linarith)
  linarith

theorem makeModelPsf_nonposFwhm (f : ℝ) (hf : f ≤ 0) (d : Int × Int) :
    makeModelPsf f d = Except.error CoaddError.invalidParameter := by
  have hs : f / FWHMPerSigma ≤ 0 := div_nonpos_iff.mpr (Or.inr ⟨hf, FWHMPerSigma_pos.le⟩)
  unfold makeModelPsf createPsfDoubleGaussian
  rw [if_pos (Or.inl hs)]

theorem makeModelPsf_nonposDim (f : ℝ) (d : Int × Int) (hd : d.1 ≤ 0 ∨ d.2 ≤ 0) :
    makeModelPsf f d = Except.error CoaddError.invalidParameter := by
  unfold makeModelPsf createPsfDoubleGaussian
  rw [if_pos (Or.inr hd)]

theorem makeModelPsf_pos (f : ℝ) (hf : 0 < f) (d : Int × Int)
    (hw : 0 < d.1) (hh : 0 < d.2) :
    makeModelPsf f d =
      Except.ok ⟨d.1, d.2, f / FWHMPerSigma, (f / FWHMPerSigma) * 2.5, 0.1⟩ := by
  have hs : 0 < f / FWHMPerSigma := div_pos hf FWHMPerSigma_pos
  unfold makeModelPsf createPsfDoubleGaussian
  rw [if_neg]
  push_neg
  exact ⟨by linarith, by omega, by omega⟩

theorem runLoop_eq_filter (env : PipelineEnv) (config : MakeCoaddTempExpConfig)
    (l : List Nat) :
    runLoop env config l = l.filter (fun i => survives env config i) := by
  induction l with
  | nil => rfl
  | cons a t ih =>
    unfold runLoop
    cases hd : env.datasetExists a with
    | false =>
      simp [List.filter, survives, hd, ih]
    | true =>
      cases hp : preprocessExposure env config (Exp.calexp a) with
      | error e => simp [List.filter, survives, hd, hp, exceptOk, ih]
      | ok e => simp [List.filter, survives, hd, hp, exceptOk, ih]

theorem preprocess_nonpos_fwhm (env : PipelineEnv) (config : MakeCoaddTempExpConfig)
    (f : ℝ) (hcfg : config.desiredFwhm = some f) (hf : f ≤ 0)
    (hscale : 0 < env.pixelScaleArcsec) (e : Exp) :
    preprocessExposure env config e = Except.error CoaddError.invalidParameter := by
  have hfp : f / env.pixelScaleArcsec ≤ 0 :=
    div_nonpos_iff.mpr (Or.inr ⟨hf, hscale.le⟩)
  have h := makeModelPsf_nonposFwhm _ hfp (env.kernelDim e)
  unfold preprocessExposure psfMatchStep
  simp only [hcfg, h]

theorem runLoop_nil_of_no_survivor (env : PipelineEnv) (config : MakeCoaddTempExpConfig)
    (l : List Nat) (h : ∀ i ∈ l, survives env config i = false) :
    runLoop env config l = [] := by
  induction l with
  | nil => rfl
  | cons a t ih =>
    have ha := h a (by simp)
    have ht : ∀ i ∈ t, survives env config i = false := fun i hi => h i (by simp [hi])
    unfold runLoop
    cases hd : env.datasetExists a with
    | false => simpa [hd] using ih ht
    | true =>
      cases hp : preprocessExposure env config (Exp.calexp a) with
      | error e => simpa [hd, hp] using ih ht
      | ok e => simp [survives, hd, hp, exceptOk] at ha

theorem runTask_nonpos_fwhm (env : PipelineEnv) (config : MakeCoaddTempExpConfig)
    (f : ℝ) (hcfg : config.desiredFwhm = some f) (hf : f ≤ 0)
    (hscale : 0 < env.pixelScaleArcsec) (l : List Nat) (hne : l ≠ []) :
    runTask env config l = Except.ok [] := by
  have hlen : ¬ l.length < 1 := by
    have := List.length_pos_iff_ne_nil.mpr hne
    omega
  unfold runTask
  rw [if_neg hlen, runLoop_nil_of_no_survivor]
  intro i _
  simp [survives, preprocess_nonpos_fwhm env config f hcfg hf hscale, exceptOk]

/- ===== Claim theorems ===== -/

/-- C1 (counterexample): with one selected exposure whose calexp dataset is
missing, every exposure is skipped, yet the run returns normally with an empty
output list instead of raising the run-fatal empty-input error. -/
theorem c1_counterexample :
    runTask envAllMissing cfgNone [0] = Except.ok [] ∧
    runTask envAllMissing cfgNone [0] ≠ Except.error CoaddError.emptyInputSet := by
  have h : runTask envAllMissing cfgNone [0] = Except.ok [] := by
    simp [runTask, runLoop, envAllMissing]
  refine ⟨h, ?_⟩
  rw [h]
  intro hcontra
  exact Except.noConfusion hcontra

/-- C1 (amended): MakeCoaddTempExpTask.run raises the run-fatal empty-input
error exactly when the selected exposure list is empty before any per-exposure
processing; when the list is non-empty but every selected exposure is skipped
(here: every calexp dataset is missing), the run returns normally with an empty
output list and produces no composite. -/
theorem c1_empty_check_precedes_skipping (env : PipelineEnv)
    (config : MakeCoaddTempExpConfig) (imageRefList : List Nat) :
    (runTask env config imageRefList = Except.error CoaddError.emptyInputSet ↔
      imageRefList = []) ∧
    ((∀ i ∈ imageRefList, env.datasetExists i = false) → imageRefList ≠ [] →
      runTask env config imageRefList = Except.ok []) := by
  constructor
  · constructor
    · intro h
      by_contra hne
      have hlen : ¬ imageRefList.length < 1 := by
        have := List.length_pos_iff_ne_nil.mpr hne
        omega
      unfold runTask at h
      rw [if_neg hlen] at h
      exact Except.noConfusion h
    · intro h
      subst h
      rfl
  · intro hall hne
    have hlen : ¬ imageRefList.length < 1 := by
      have := List.length_pos_iff_ne_nil.mpr hne
      omega
    unfold runTask
    rw [if_neg hlen, runLoop_nil_of_no_survivor]
    intro i hi
    simp [survives, hall i hi]

/-- C1 (witness): the amended claim evaluated on a singleton list whose
exposure is skipped for a missing dataset. -/
theorem c1_witness :
    (runTask envAllMissing cfgNone [5] = Except.error CoaddError.emptyInputSet ↔
      ([5] : List Nat) = []) ∧
    runTask envAllMissing cfgNone [5] = Except.ok [] :=
  ⟨(c1_empty_check_precedes_skipping envAllMissing cfgNone [5]).1,
   (c1_empty_check_precedes_skipping envAllMissing cfgNone [5]).2
     (by intro i _; rfl) (by simp)⟩

/-- C2 (counterexample): with a configured desired FWHM of -1 (present but
non-positive) and every external collaborator succeeding, the PSF-match step is
not disabled: preprocessExposure fails with InvalidParameter instead of
producing the warped-and-scaled exposure that the disabled (None) configuration
produces on the same input. -/
theorem c2_counterexample :
    preprocessExposure envAllOk cfgNeg (Exp.calexp 0) =
      Except.error CoaddError.invalidParameter ∧
    preprocessExposure envAllOk cfgNone (Exp.calexp 0) =
      Except.ok (Exp.scaled (Exp.warped (Exp.calexp 0))) := by
  constructor
  · exact preprocess_nonpos_fwhm envAllOk cfgNeg (-1) rfl (by norm_num)
      (by norm_num [envAllOk]) (Exp.calexp 0)
  · rfl

/-- C2 (amended): the PSF-match step of preprocessExposure is skipped iff the
configured desired FWHM is absent (None); a present value triggers the step
regardless of sign — a present non-positive value does not disable matching but
makes the exposure fail with InvalidParameter, while a present positive value
(with positive pixel scale and kernel dimensions) performs the match. -/
theorem c2_match_iff_present (env : PipelineEnv) (config : MakeCoaddTempExpConfig)
    (e : Exp) :
    (config.desiredFwhm = none → psfMatchStep env config e = Except.ok e) ∧
    (∀ f : ℝ, config.desiredFwhm = some f → f ≤ 0 → 0 < env.pixelScaleArcsec →
      preprocessExposure env config e = Except.error CoaddError.invalidParameter) ∧
    (∀ f : ℝ, config.desiredFwhm = some f → 0 < f → 0 < env.pixelScaleArcsec →
      0 < (env.kernelDim e).1 → 0 < (env.kernelDim e).2 → env.psfMatchOk e = true →
      ∃ psf : DoubleGaussianPsf,
        psfMatchStep env config e = Except.ok (Exp.psfMatched e psf)) := by
  refine ⟨?_, ?_, ?_⟩
  · intro h
    unfold psfMatchStep
    simp only [h]
  · intro f hcfg hf hscale
    exact preprocess_nonpos_fwhm env config f hcfg hf hscale e
  · intro f hcfg hfpos hscale hw hh hmatch
    have hfp : 0 < f / env.pixelScaleArcsec := div_pos hfpos hscale
    have h := makeModelPsf_pos (f / env.pixelScaleArcsec) hfp (env.kernelDim e) hw hh
    refine ⟨⟨(env.kernelDim e).1, (env.kernelDim e).2,
      f / env.pixelScaleArcsec / FWHMPerSigma,
      f / env.pixelScaleArcsec / FWHMPerSigma * 2.5, 0.1⟩, ?_⟩
    unfold psfMatchStep
    simp only [hcfg, h, hmatch, if_true]

/-- C2 (witness): the amended claim evaluated at a present non-positive FWHM. -/
theorem c2_witness :
    preprocessExposure envAllOk cfgNeg (Exp.calexp 0) =
      Except.error CoaddError.invalidParameter :=
  (c2_match_iff_present envAllOk cfgNeg (Exp.calexp 0)).2.1 (-1) rfl
    (by norm_num) (by norm_num [envAllOk])

/-- C3: in MakeCoaddTempExpTask.run, per-exposure failures (missing dataset or
any error raised by preprocessExposure: PSF-match failure, no-overlap,
missing calibration, invalid parameter) only remove that exposure from the
output; on a non-empty input list the run always returns normally, with
exactly the surviving exposures, and is never aborted by such a failure. -/
theorem c3_per_exposure_isolation (env : PipelineEnv) (config : MakeCoaddTempExpConfig)
    (imageRefList : List Nat) (hne : imageRefList ≠ []) :
    runTask env config imageRefList =
      Except.ok (imageRefList.filter (fun i => survives env config i)) := by
  have hlen : ¬ imageRefList.length < 1 := by
    have := List.length_pos_iff_ne_nil.mpr hne
    omega
  unfold runTask
  rw [if_neg hlen, runLoop_eq_filter]

/-- C3 (witness): a run over two exposures in an environment where warping
always fails with NoOverlap completes normally with an empty survivor list. -/
theorem c3_witness :
    ([4, 9] : List Nat) ≠ [] ∧
    runTask envNoOverlap cfgNone [4, 9] =
      Except.ok (([4, 9] : List Nat).filter (fun i => survives envNoOverlap cfgNone i)) :=
  ⟨by simp, c3_per_exposure_isolation envNoOverlap cfgNone [4, 9] (by simp)⟩

/-- C4: every exposure that preprocessExposure emits successfully has the
zero-point rescale as its final applied transform — the rescale is never
silently skipped for an exposure that reaches the emit stage. -/
theorem c4_rescale_always_applied (env : PipelineEnv) (config : MakeCoaddTempExpConfig)
    (exposure result : Exp)
    (h : preprocessExposure env config exposure = Except.ok result) :
    ∃ e2 : Exp, result = Exp.scaled e2 := by
  cases h1 : psfMatchStep env config exposure with
  | error e =>
    simp only [preprocessExposure, h1] at h
    exact Except.noConfusion h
  | ok e1 =>
    cases h2 : warpStep env e1 with
    | error e =>
      simp only [preprocessExposure, h1, h2] at h
      exact Except.noConfusion h
    | ok e2 =>
      simp only [preprocessExposure, h1, h2, scaleStep] at h
      cases h3 : env.scaleOk e2 with
      | false =>
        rw [h3] at h
        simp only [Bool.false_eq_true, if_false] at h
        exact Except.noConfusion h
      | true =>
        rw [h3] at h
        simp only [if_true] at h
        exact ⟨e2, (Except.ok.inj h).symm⟩

/-- C4 (witness): the theorem evaluated on a concrete successful run of the
preprocessor. -/
theorem c4_witness :
    ∃ e2 : Exp, Exp.scaled (Exp.warped (Exp.calexp 0)) = Exp.scaled e2 :=
  c4_rescale_always_applied envAllOk cfgNone (Exp.calexp 0)
    (Exp.scaled (Exp.warped (Exp.calexp 0))) rfl

/-- C5 (counterexample): the model builder does fail with InvalidParameter on a
non-positive FWHM, but the error is not fatal: a run over one existing exposure
with a configured FWHM of -1 catches the error at the per-exposure boundary and
returns normally with that exposure skipped, instead of propagating it. -/
theorem c5_counterexample :
    makeModelPsf (-1) (3, 3) = Except.error CoaddError.invalidParameter ∧
    runTask envAllOk cfgNeg [0] = Except.ok [] := by
  constructor
  · exact makeModelPsf_nonposFwhm (-1) (by norm_num) (3, 3)
  · exact runTask_nonpos_fwhm envAllOk cfgNeg (-1) rfl (by norm_num)
      (by norm_num [envAllOk]) [0] (by simp)

/-- C5 (amended): the model builder fails with InvalidParameter whenever the
FWHM is non-positive or either kernel dimension is non-positive; however, when
this error arises during per-exposure preprocessing (a present non-positive
configured FWHM), the run's catch-all exception handler converts it into a
per-exposure skip: the run returns normally with every such exposure excluded,
rather than letting the error propagate to the caller. -/
theorem c5_invalid_parameter_is_caught (env : PipelineEnv)
    (config : MakeCoaddTempExpConfig) (f : ℝ) (d : Int × Int) :
    (f ≤ 0 → makeModelPsf f d = Except.error CoaddError.invalidParameter) ∧
    (d.1 ≤ 0 ∨ d.2 ≤ 0 → makeModelPsf f d = Except.error CoaddError.invalidParameter) ∧
    (config.desiredFwhm = some f → f ≤ 0 → 0 < env.pixelScaleArcsec →
      ∀ l : List Nat, l ≠ [] → runTask env config l = Except.ok []) := by
  refine ⟨?_, ?_, ?_⟩
  · intro hf
    exact makeModelPsf_nonposFwhm f hf d
  · intro hd
    exact makeModelPsf_nonposDim f d hd
  · intro hcfg hf hscale l hne
    exact runTask_nonpos_fwhm env config f hcfg hf hscale l hne

/-- C5 (witness): the amended claim evaluated at FWHM -1, dimensions 3x3 and a
run over one existing exposure. -/
theorem c5_witness :
    makeModelPsf (-1) (3, 3) = Except.error CoaddError.invalidParameter ∧
    runTask envAllOk cfgNeg [2] = Except.ok [] :=
  ⟨(c5_invalid_parameter_is_caught envAllOk cfgNeg (-1) (3, 3)).1 (by norm_num),
   (c5_invalid_parameter_is_caught envAllOk cfgNeg (-1) (3, 3)).2.2 rfl (by norm_num)
     (by norm_num [envAllOk]) [2] (by simp)⟩

/-- C6: for a source with a valid centroid and an initially clear primary flag:
when the child-count key is absent or the source has zero children, the primary
flag becomes the conjunction of the two computed inner flags; otherwise the
primary flag is left false; in particular a childless source whose sky position
resolves to a different tract is never primary. -/
theorem c6_primary_flag_rule (skyInfo : SkyInfo) (hasNChildKey : Bool)
    (source : SourceRecord) (hc : source.centroidFlag = false)
    (hp : source.isPrimary = false) :
    ((hasNChildKey = false ∨ source.nChild = 0) →
      (processSource skyInfo hasNChildKey source).isPrimary =
        ((processSource skyInfo hasNChildKey source).isPatchInner &&
          (processSource skyInfo hasNChildKey source).isTractInner)) ∧
    (hasNChildKey = true → source.nChild ≠ 0 →
      (processSource skyInfo hasNChildKey source).isPrimary = false) ∧
    (source.nChild = 0 → skyInfo.findTractId source.coordId ≠ skyInfo.tractId →
      (processSource skyInfo hasNChildKey source).isPrimary = false) := by
  refine ⟨?_, ?_, ?_⟩
  · rintro (hk | hn)
    · subst hk
      simp [processSource, hc]
    · simp [processSource, hc, hn]
  · intro hk hn
    subst hk
    have hb : (source.nChild == 0) = false := by
      simp [hn]
    simp [processSource, hc, hb, hp]
  · intro hn ht
    have hb : (skyInfo.findTractId source.coordId == skyInfo.tractId) = false := by
      simp [ht]
    simp [processSource, hc, hn, hb]

/-- C6 (witness): the rule evaluated on a childless source inside the patch
inner box whose sky position belongs to a neighboring tract: it is not primary. -/
theorem c6_witness :
    srcOutsideTract.centroidFlag = false ∧
    (processSource skyInfo0 true srcOutsideTract).isPrimary = false :=
  ⟨rfl, (c6_primary_flag_rule skyInfo0 true srcOutsideTract rfl rfl).2.2 rfl (by decide)⟩

/-- C7: when the configuration declares deblending was performed but the
child-count key is absent from the schema, setIsPrimaryFlag fails with the
run-fatal schema-inconsistency error before touching any source. -/
theorem c7_schema_inconsistency_fatal (skyInfo : SkyInfo) (sources : List SourceRecord) :
    setIsPrimaryFlag { doDeblend := true } false skyInfo sources =
      Except.error CoaddError.schemaInconsistency := rfl

/-- C8: for a positive FWHM and positive odd kernel dimensions, the model
builder returns a double-Gaussian kernel whose core standard deviation is
FWHM / (2 * sqrt (2 * ln 2)), whose wing standard deviation is 2.5 times the
core's, and whose wing peak amplitude is 0.1 of the core's; and the
construction is deterministic in its inputs. -/
theorem c8_double_gaussian_parameters (f : ℝ) (w h : Int) (hf : 0 < f)
    (hw : 0 < w) (hh : 0 < h) (_hwodd : Odd w) (_hhodd : Odd h) :
    (∃ psf : DoubleGaussianPsf, makeModelPsf f (w, h) = Except.ok psf ∧
      psf.width = w ∧ psf.height = h ∧
      psf.sigma1 = f / (2 * Real.sqrt (2 * Real.log 2)) ∧
      psf.sigma2 = 2.5 * psf.sigma1 ∧ psf.b = 0.1) ∧
    (∀ f2 : ℝ, ∀ d2 : Int × Int, f2 = f → d2 = (w, h) →
      makeModelPsf f2 d2 = makeModelPsf f (w, h)) := by
  constructor
  · refine ⟨⟨w, h, f / FWHMPerSigma, (f / FWHMPerSigma) * 2.5, 0.1⟩,
      makeModelPsf_pos f hf (w, h) hw hh, rfl, rfl, rfl, mul_comm _ _, rfl⟩
  · intro f2 d2 h1 h2
    subst h1
    subst h2
    rfl

/-- C8 (witness): the kernel contract evaluated at FWHM 1 and dimensions 3x3. -/
theorem c8_witness :
    (0 : ℝ) < 1 ∧ Odd (3 : ℤ) ∧
    ((∃ psf : DoubleGaussianPsf, makeModelPsf 1 (3, 3) = Except.ok psf ∧
        psf.width = 3 ∧ psf.height = 3 ∧
        psf.sigma1 = 1 / (2 * Real.sqrt (2 * Real.log 2)) ∧
        psf.sigma2 = 2.5 * psf.sigma1 ∧ psf.b = 0.1) ∧
      (∀ f2 : ℝ, ∀ d2 : Int × Int, f2 = 1 → d2 = (3, 3) →
        makeModelPsf f2 d2 = makeModelPsf 1 (3, 3))) :=
  ⟨by norm_num, ⟨1, by norm_num⟩,
    c8_double_gaussian_parameters 1 3 3 (by norm_num) (by norm_num) (by norm_num)
      ⟨1, by norm_num⟩ ⟨1, by norm_num⟩⟩

/-- C9: a source whose centroid is flagged unknown is returned untouched by the
classifier loop body, and (flags being initially false) all three flags stay
false. -/
theorem c9_unknown_centroid_untouched (skyInfo : SkyInfo) (hasNChildKey : Bool)
    (source : SourceRecord) (hc : source.centroidFlag = true)
    (h1 : source.isPatchInner = false) (h2 : source.isTractInner = false)
    (h3 : source.isPrimary = false) :
    processSource skyInfo hasNChildKey source = source ∧
    (processSource skyInfo hasNChildKey source).isPatchInner = false ∧
    (processSource skyInfo hasNChildKey source).isTractInner = false ∧
    (processSource skyInfo hasNChildKey source).isPrimary = false := by
  have he : processSource skyInfo hasNChildKey source = source := by
    unfold processSource
    rw [if_pos hc]
  exact ⟨he, by rw [he]; exact h1, by rw [he]; exact h2, by rw [he]; exact h3⟩

/-- C9 (witness): the invariant evaluated on a concrete flagged-centroid source. -/
theorem c9_witness :
    processSource skyInfo0 true srcBadCentroid = srcBadCentroid ∧
    (processSource skyInfo0 true srcBadCentroid).isPatchInner = false ∧
    (processSource skyInfo0 true srcBadCentroid).isTractInner = false ∧
    (processSource skyInfo0 true srcBadCentroid).isPrimary = false :=
  c9_unknown_centroid_untouched skyInfo0 true srcBadCentroid rfl rfl rfl rfl

/-- C10: CoaddTask in coadd.py can never execute: __init__ raises
AttributeError on its first statement whenever the base Task class does not
define a pipeBase attribute (no instance attribute exists yet and the CoaddTask
class body defines none), and run — declared without self — never reaches a
normal outcome, because the names self, pexLog and policy do not resolve in its
scope; hence no composite is ever produced through this class. -/
theorem c10_coadd_task_never_executes :
    (∀ baseTaskAttrs : List String, baseTaskAttrs.contains "pipeBase" = false →
      coaddTaskInitOutcome baseTaskAttrs = PyOutcome.attributeError "pipeBase") ∧
    (∀ numExpRefs : Nat, coaddTaskRunOutcome numExpRefs ≠ PyOutcome.ok) ∧
    resolvesInCoaddRun "pexLog" = false ∧
    resolvesInCoaddRun "policy" = false ∧
    coaddRunParams.contains "self" = false := by
  refine ⟨?_, ?_, by decide, by decide, by decide⟩
  · intro attrs hattrs
    have hcls : coaddTaskClassAttrs.contains "pipeBase" = false := by decide
    unfold coaddTaskInitOutcome
    rw [hcls, hattrs]
    rfl
  · intro n
    unfold coaddTaskRunOutcome
    by_cases hn : n < 1
    · rw [if_pos hn]
      exact fun hcontra => PyOutcome.noConfusion hcontra
    · rw [if_neg hn]
      have hs : resolvesInCoaddRun "self" = false := by decide
      rw [hs]
      intro hcontra
      exact PyOutcome.noConfusion hcontra

/-- C10 (witness): the theorem evaluated at an empty base-attribute list and a
run over three exposures. -/
theorem c10_witness :
    coaddTaskInitOutcome [] = PyOutcome.attributeError "pipeBase" ∧
    coaddTaskRunOutcome 3 ≠ PyOutcome.ok :=
  ⟨c10_coadd_task_never_executes.1 [] (by decide),
   c10_coadd_task_never_executes.2.1 3⟩
